import Mathlib

/-!
Shallow embedding of the TechGap curriculum gap analyzer
(backend/routers/gap_analysis.py) and proofs about its aggregation engine.

Strings are modelled with Lean `String`; machine floats are modelled with `ℚ`
(the quantities involved are exact small rationals, and the one-decimal
percentage formatting is modelled by rounding the percentage to one decimal
place); SQL tables are lists of records; HTTP 404 responses are an explicit
error type.
-/

namespace TechGap

/-! ### Label normalizer (gap_analysis.py, `normalize_string`) -/

/-- ASCII lowercasing of one character, as Python `str.lower` acts on the
ASCII range (codepoints 65–90 map to 97–122, everything else in the kept
alphabet is fixed). -/
def lowerChar (c : Char) : Char :=
  if 65 ≤ c.toNat ∧ c.toNat ≤ 90 then Char.ofNat (c.toNat + 32) else c

/-- Characters kept by the regex substitution `re.sub(r'[^a-z0-9]', '', ·)`:
ASCII lowercase letters and digits. -/
def keepAlnum (c : Char) : Bool :=
  decide ((97 ≤ c.toNat ∧ c.toNat ≤ 122) ∨ (48 ≤ c.toNat ∧ c.toNat ≤ 57))

/-- `normalize_string(text)`: empty on falsy input, otherwise lowercase the
text and delete every character that is not an ASCII lowercase letter or
digit. -/
def normalize_string (text : String) : String :=
  if text = "" then ""
  else String.mk (((text.toList).map lowerChar).filter keepAlnum)

/-! ### Data model (backend/app/models.py, the columns the engine reads) -/

/-- Curriculum row: id plus the two label columns used by `get_options`. -/
structure CurriculumRec where
  curriculum_id : Nat
  track : Option String
  course_title : Option String
deriving DecidableEq, Repr

/-- JobRole row: id plus the two label columns used by `get_options`. -/
structure JobRec where
  job_id : Nat
  query : Option String
  title : Option String
deriving DecidableEq, Repr

/-- Skill row: id and name. -/
structure SkillRec where
  skill_id : Nat
  skill_name : String
deriving DecidableEq, Repr

/-- CourseSkill link row (curriculum-skill inventory). -/
structure CourseSkillRec where
  curriculum_id : Nat
  skill_id : Nat
deriving DecidableEq, Repr

/-- JobSkill link row (job-required skills). -/
structure JobSkillRec where
  job_id : Nat
  skill_id : Nat
deriving DecidableEq, Repr

/-- SkillMatchDetail row: one similarity judgment for a
(curriculum, job, skill) triple. Only the columns the engine reads are
modelled. -/
structure SMDRec where
  curriculum_id : Nat
  job_id : Nat
  skill_id : Nat
  status : String
deriving DecidableEq, Repr

/-- One row of the optional `options_summary` fast-path table. -/
structure SummaryRow where
  entity_type : String
  entity_id : Nat
  label : Option String
deriving DecidableEq, Repr

/-- The relational state visible to the engine. `options_summary = none`
models the summary table being absent (the `except` fallback path). -/
structure DB where
  curricula : List CurriculumRec
  jobs : List JobRec
  skills : List SkillRec
  course_skills : List CourseSkillRec
  job_skills : List JobSkillRec
  details : List SMDRec
  options_summary : Option (List SummaryRow)
deriving DecidableEq, Repr

/-! ### Source-reader queries used by `_calculate_gap_analysis` -/

/-- The join `SkillMatchDetail ⋈ Skill` filtered to one (curriculum, job)
pair, yielding (skill_name, status) pairs in table order. -/
def joinedRows (db : DB) (cid jid : Nat) : List (String × String) :=
  (db.details.filter fun d => d.curriculum_id == cid && d.job_id == jid).flatMap
    fun d => (db.skills.filter fun s => s.skill_id == d.skill_id).map
      fun s => (s.skill_name, d.status)

/-- `count(CourseSkill.skill_id)` filtered to one curriculum. -/
def courseSkillCount (db : DB) (cid : Nat) : Nat :=
  (db.course_skills.filter fun r => r.curriculum_id == cid).length

/-- The job's required-skill names per its JobSkill links (the notion the
spec calls `job_required`; the engine itself never queries this table). -/
def job_required_names (db : DB) (jid : Nat) : List String :=
  (db.job_skills.filter fun l => l.job_id == jid).flatMap
    fun l => (db.skills.filter fun s => s.skill_id == l.skill_id).map
      fun s => s.skill_name

/-! ### `sorted(list(set(...)))` -/

/-- Byte-wise comparison of strings as Python `sorted` orders them
(lexicographic on codepoints). -/
def strLeb (a b : String) : Bool :=
  a ≤ b

/-- Insert a string into a list, keeping ascending order. -/
def insertStr (a : String) : List String → List String
  | [] => [a]
  | b :: bs => if strLeb a b then a :: b :: bs else b :: insertStr a bs

/-- Insertion sort on strings: `sorted(...)`. -/
def sortStrs : List String → List String
  | [] => []
  | a :: as => insertStr a (sortStrs as)

/-- `sorted(list(set(l)))`: the distinct elements of `l` in ascending
order. -/
def sortedDedup (l : List String) : List String :=
  sortStrs l.dedup

/-! ### Metric calculator (gap_analysis.py lines 127–147) -/

/-- The denominator substitution of lines 137–138: a zero curriculum-skill
count falls back to the match count when positive, else to 1. -/
def adjusted_total (total_curriculum_skills match_count : Nat) : Nat :=
  if total_curriculum_skills = 0 then
    (if match_count > 0 then match_count else 1)
  else total_curriculum_skills

/-- Line 145: `coverage = match_count / total_job_needs` with
`total_job_needs = match_count + gap_count`, 0.0 on a zero denominator. -/
def coverage_of (match_count gap_count : Nat) : ℚ :=
  let total_job_needs := match_count + gap_count
  if total_job_needs > 0 then (match_count : ℚ) / (total_job_needs : ℚ) else 0

/-- Lines 137–147: `relevance = match_count / total_curriculum_skills` on the
adjusted denominator, 0.0 on a zero denominator, clamped to at most 1.0. -/
def relevance_of (match_count total_curriculum_skills : Nat) : ℚ :=
  let t := adjusted_total total_curriculum_skills match_count
  let r := if t > 0 then (match_count : ℚ) / (t : ℚ) else 0
  if r > 1 then 1 else r

/-- One-decimal rounding of a percentage value, modelling Python's
`round(x, 1)` / `f"{x:.1f}"` on the exact rationals that arise here. -/
def round1 (q : ℚ) : ℚ :=
  ((round (q * 10) : ℤ) : ℚ) / 10

/-- The percent string `f"{q * 100:.1f}%"` for a fraction `q ∈ [0,1]`. -/
def fmtPct (q : ℚ) : String :=
  let n := round (q * 1000)
  toString (n / 10) ++ "." ++ toString (n % 10) ++ "%"

/-- The dictionary returned by `_calculate_gap_analysis`. -/
structure GapResult where
  coverage : String
  relevance : String
  coverage_score : ℚ
  relevance_score : ℚ
  matchingSkills : Nat
  missingSkills : Nat
  totalCurriculumSkills : Nat
  irrelevantSkills : Nat
  exact : List String
  gaps : List String
deriving DecidableEq, Repr

/-- Lines 127–164: metrics from the deduplicated sorted match/gap name lists
(`matches`/`gaps` in the source; `matches` is a Lean keyword) and the stored
curriculum-skill count. -/
def computeMetrics (matchList gapList : List String)
    (total_curriculum_skills : Nat) : GapResult :=
  let match_count := matchList.length
  let gap_count := gapList.length
  let tcs := adjusted_total total_curriculum_skills match_count
  let irrelevant_count := (max 0 ((tcs : ℤ) - (match_count : ℤ))).toNat
  let coverage := coverage_of match_count gap_count
  let relevance := relevance_of match_count total_curriculum_skills
  { coverage := fmtPct coverage
    relevance := fmtPct relevance
    coverage_score := round1 (coverage * 100)
    relevance_score := round1 (relevance * 100)
    matchingSkills := match_count
    missingSkills := gap_count
    totalCurriculumSkills := tcs
    irrelevantSkills := irrelevant_count
    exact := matchList
    gaps := gapList }

/-- Lines 119–129: a row with status `'match'` goes to matches, every other
status to gaps; then `sorted(list(set(...)))` on both lists. -/
def processRows (rows : List (String × String)) : List String × List String :=
  (sortedDedup ((rows.filter fun r => r.2 == "match").map fun r => r.1),
   sortedDedup ((rows.filter fun r => r.2 != "match").map fun r => r.1))

/-- Steps 2–5 of `_calculate_gap_analysis` for given joined judgment rows
and stored curriculum-skill count. -/
def computeFromRows (rows : List (String × String))
    (total_curriculum_skills : Nat) : GapResult :=
  computeMetrics (processRows rows).1 (processRows rows).2
    total_curriculum_skills

/-- The two HTTP 404 failures raised by `_calculate_gap_analysis`. -/
inductive AnalysisError where
  | curriculumNotFound : Nat → AnalysisError
  | jobNotFound : Nat → AnalysisError
deriving DecidableEq, Repr

/-- Whether `db.query(Curriculum).filter(...).first()` finds a row. -/
def curriculumExists (db : DB) (cid : Nat) : Bool :=
  db.curricula.any fun c => c.curriculum_id == cid

/-- Whether `db.query(JobRole).filter(...).first()` finds a row. -/
def jobExists (db : DB) (jid : Nat) : Bool :=
  db.jobs.any fun j => j.job_id == jid

/-- `_calculate_gap_analysis(curriculum_id, job_id, db)`: 404 if the
curriculum is unknown (checked first), then 404 if the job is unknown,
otherwise the metrics over the joined judgment rows. -/
def _calculate_gap_analysis (db : DB) (curriculum_id job_id : Nat) :
    Except AnalysisError GapResult :=
  if curriculumExists db curriculum_id then
    if jobExists db job_id then
      .ok (computeFromRows (joinedRows db curriculum_id job_id)
        (courseSkillCount db curriculum_id))
    else .error (.jobNotFound job_id)
  else .error (.curriculumNotFound curriculum_id)

/-! ### Options endpoint and its process-wide cache (gap_analysis.py) -/

/-- The configured job-title blacklist `BLACKLIST_JOBS`. -/
def BLACKLIST_JOBS : List String :=
  ["statistics", "business analyst", "data warehousing",
   "technology integration", "technical operations", "data architect",
   "machine learning", "deep learning", "business intelligence analyst",
   "data quality manager"]

/-- Python truthiness chain `a or b or ""` over optional string columns:
the first present, non-empty string, else the empty string. -/
def firstTruthy : List (Option String) → String
  | [] => ""
  | some s :: rest => if s = "" then firstTruthy rest else s
  | none :: rest => firstTruthy rest

/-- One `{id, label}` entry of the options payload. -/
structure OptionEntry where
  id : Nat
  label : String
deriving DecidableEq, Repr

/-- The `{curricula, jobs}` options payload. -/
structure Options where
  curricula : List OptionEntry
  jobs : List OptionEntry
deriving DecidableEq, Repr

/-- Insertion step for ordering summary rows by `entity_id` (`ORDER BY`). -/
def insertSummary (r : SummaryRow) : List SummaryRow → List SummaryRow
  | [] => [r]
  | x :: xs =>
    if r.entity_id ≤ x.entity_id then r :: x :: xs else x :: insertSummary r xs

/-- `ORDER BY entity_id` on summary rows. -/
def sortSummary : List SummaryRow → List SummaryRow
  | [] => []
  | r :: rs => insertSummary r (sortSummary rs)

/-- Dedup loop of the summary fast path for curricula: keep a row when its
normalized label is non-empty and unseen. -/
def dedupSummaryCurricula : List SummaryRow → List String → List OptionEntry
  | [], _ => []
  | r :: rs, seen =>
    let label := firstTruthy [r.label]
    let norm := normalize_string label
    if norm ≠ "" ∧ ¬ seen.contains norm then
      ⟨r.entity_id, label⟩ :: dedupSummaryCurricula rs (norm :: seen)
    else dedupSummaryCurricula rs seen

/-- Dedup loop of the summary fast path for jobs: additionally drop a row
whose lowercased trimmed label is blacklisted. -/
def dedupSummaryJobs : List SummaryRow → List String → List OptionEntry
  | [], _ => []
  | r :: rs, seen =>
    let label := firstTruthy [r.label]
    if BLACKLIST_JOBS.contains (label.toLower.trim) then
      dedupSummaryJobs rs seen
    else
      let norm := normalize_string label
      if norm ≠ "" ∧ ¬ seen.contains norm then
        ⟨r.entity_id, label⟩ :: dedupSummaryJobs rs (norm :: seen)
      else dedupSummaryJobs rs seen

/-- Insertion step for ordering curricula by id (`ORDER BY curriculum_id`). -/
def insertCurriculum (c : CurriculumRec) :
    List CurriculumRec → List CurriculumRec
  | [] => [c]
  | x :: xs =>
    if c.curriculum_id ≤ x.curriculum_id then c :: x :: xs
    else x :: insertCurriculum c xs

/-- `ORDER BY curriculum_id` on curriculum rows. -/
def sortCurricula : List CurriculumRec → List CurriculumRec
  | [] => []
  | c :: cs => insertCurriculum c (sortCurricula cs)

/-- Insertion step for ordering jobs by id (`ORDER BY job_id`). -/
def insertJob (j : JobRec) : List JobRec → List JobRec
  | [] => [j]
  | x :: xs =>
    if j.job_id ≤ x.job_id then j :: x :: xs else x :: insertJob j xs

/-- `ORDER BY job_id` on job rows. -/
def sortJobs : List JobRec → List JobRec
  | [] => []
  | j :: js => insertJob j (sortJobs js)

/-- Fallback-path dedup loop for curricula (`label = c.track or
c.course_title or ""`). -/
def dedupCurriculumOptions : List CurriculumRec → List String → List OptionEntry
  | [], _ => []
  | c :: cs, seen =>
    let label := firstTruthy [c.track, c.course_title]
    let norm := normalize_string label
    if norm ≠ "" ∧ ¬ seen.contains norm then
      ⟨c.curriculum_id, label⟩ :: dedupCurriculumOptions cs (norm :: seen)
    else dedupCurriculumOptions cs seen

/-- Fallback-path dedup loop for jobs (`label = j.query or j.title or ""`,
blacklist applied first). -/
def dedupJobOptions : List JobRec → List String → List OptionEntry
  | [], _ => []
  | j :: js, seen =>
    let label := firstTruthy [j.query, j.title]
    if BLACKLIST_JOBS.contains (label.toLower.trim) then
      dedupJobOptions js seen
    else
      let norm := normalize_string label
      if norm ≠ "" ∧ ¬ seen.contains norm then
        ⟨j.job_id, label⟩ :: dedupJobOptions js (norm :: seen)
      else dedupJobOptions js seen

/-- The options computation of `get_options`: the summary-table fast path
when `options_summary` exists, else the `JOIN`-with-SkillMatchDetail
fallback restricted to entities that have at least one judgment. -/
def compute_options (db : DB) : Options :=
  match db.options_summary with
  | some rows =>
    { curricula := dedupSummaryCurricula
        (sortSummary (rows.filter fun r => r.entity_type == "curriculum")) []
      jobs := dedupSummaryJobs
        (sortSummary (rows.filter fun r => r.entity_type == "job")) [] }
  | none =>
    { curricula := dedupCurriculumOptions
        (sortCurricula ((db.curricula.filter fun c =>
          db.details.any fun d => d.curriculum_id == c.curriculum_id).dedup)) []
      jobs := dedupJobOptions
        (sortJobs ((db.jobs.filter fun j =>
          db.details.any fun d => d.job_id == j.job_id).dedup)) [] }

/-- `invalidate_options_cache()`: reset the module-global `_OPTIONS_CACHE`
to `None`. -/
def invalidate_options_cache : Option Options :=
  none

/-- `get_options(db)` over an explicit cache state: return the cached
payload when present (ignoring the database), else compute, store and
return it. Returns (response, new cache state). -/
def get_options (cache : Option Options) (db : DB) :
    Options × Option Options :=
  match cache with
  | some o => (o, some o)
  | none => (compute_options db, some (compute_options db))

/-! ### Recommendation endpoint (gap_analysis.py, `generate_recommendation`)

External providers are embedded as explicit outcomes: every exception,
safety block or empty response that the source swallows with `continue`
is the `failure` outcome, and a returned text is `success`. The Lean
function is total, mirroring that every provider failure is handled and
nothing propagates to the caller. -/

/-- Outcome of one external provider call as seen by the handler. -/
inductive ProviderOutcome where
  | success : String → ProviderOutcome
  | failure : ProviderOutcome
deriving DecidableEq, Repr

/-- The request body of `POST /api/recommend`. Scores are rationals in
place of floats. -/
structure RecommendationRequest where
  job_title : String
  curriculum_title : String
  missing_skills : List String
  coverage_score : ℚ
  relevance_score : ℚ
deriving DecidableEq, Repr

/-- The process environment: configured API keys and the outcome each
provider call would produce. -/
structure ProviderEnv where
  groq_api_key : Option String
  google_api_key : Option String
  groq_outcome : ProviderOutcome
  gemini_outcome : String → ProviderOutcome

/-- The ordered Gemini fallback model list `GEMINI_MODELS`. -/
def GEMINI_MODELS : List String :=
  ["gemini-2.5-flash-lite", "gemini-2.5-flash", "gemini-2.5-pro",
   "gemini-2.0-flash-lite", "gemini-2.0-flash", "gemini-flash-lite-latest",
   "gemini-flash-latest", "gemini-pro-latest"]

/-- Early-return message when `GOOGLE_API_KEY` is unset. -/
def API_KEY_MISSING_MSG : String :=
  "⚠️ API Key missing. Please set GOOGLE_API_KEY in your backend environment."

/-- Placeholder message returned when every provider has failed. -/
def TOTAL_FAILURE_MSG : String :=
  "Unable to generate AI recommendations at this time. All models are currently unavailable. Please try again later."

/-- The recommendation cache key
`f"{curriculum_title}_{job_title}_{coverage_score}_{relevance_score}"`. -/
def cacheKey (req : RecommendationRequest) : String :=
  req.curriculum_title ++ "_" ++ req.job_title ++ "_"
    ++ toString req.coverage_score ++ "_" ++ toString req.relevance_score

/-- The Tier-2 loop over `GEMINI_MODELS`: first successful text, if any
(quota errors, safety blocks, empty responses and other exceptions all
`continue` to the next model). -/
def tryGeminiModels (outcome : String → ProviderOutcome) :
    List String → Option String
  | [] => none
  | m :: ms =>
    match outcome m with
    | .success t => some t
    | .failure => tryGeminiModels outcome ms

/-- `generate_recommendation(request)` over an explicit cache state:
cached text on a key hit; the key-missing message when `GOOGLE_API_KEY`
is unset; otherwise Groq first (when its key is set), then the Gemini
model chain, caching any produced text; the apologetic placeholder when
every provider failed. Returns (response text, new cache state). -/
def generate_recommendation (env : ProviderEnv)
    (cache : List (String × String)) (req : RecommendationRequest) :
    String × List (String × String) :=
  let key := cacheKey req
  match cache.find? fun e => e.1 == key with
  | some e => (e.2, cache)
  | none =>
    match env.google_api_key with
    | none => (API_KEY_MISSING_MSG, cache)
    | some _ =>
      let groqResult :=
        match env.groq_api_key with
        | none => none
        | some _ =>
          match env.groq_outcome with
          | .success t => some t
          | .failure => none
      match groqResult with
      | some t => (t, (key, t) :: cache)
      | none =>
        match tryGeminiModels env.gemini_outcome GEMINI_MODELS with
        | some t => (t, (key, t) :: cache)
        | none => (TOTAL_FAILURE_MSG, cache)

/-! ### Concrete database states used by counterexamples and witnesses -/

/-- Scenario-A database: 10 curriculum-skill links, judgments
python=match, sql=partial, docker=gap for the pair (1, 2). -/
def db1 : DB :=
  { curricula := [⟨1, some "BSCS", none⟩]
    jobs := [⟨2, some "data engineer", none⟩]
    skills := [⟨10, "python"⟩, ⟨11, "sql"⟩, ⟨12, "docker"⟩]
    course_skills := [⟨1, 20⟩, ⟨1, 21⟩, ⟨1, 22⟩, ⟨1, 23⟩, ⟨1, 24⟩,
                      ⟨1, 25⟩, ⟨1, 26⟩, ⟨1, 27⟩, ⟨1, 28⟩, ⟨1, 29⟩]
    job_skills := []
    details := [⟨1, 2, 10, "match"⟩, ⟨1, 2, 11, "partial"⟩,
                ⟨1, 2, 12, "gap"⟩]
    options_summary := none }

/-- The result `_calculate_gap_analysis db1 1 2` actually produces. -/
def recDb1 : GapResult :=
  { coverage := "33.3%", relevance := "10.0%"
    coverage_score := 333 / 10, relevance_score := 10
    matchingSkills := 1, missingSkills := 2
    totalCurriculumSkills := 10, irrelevantSkills := 9
    exact := ["python"], gaps := ["docker", "sql"] }

/-- Database with two judgments for the same skill name "python" on the
pair (1, 2): one with status match, one with status gap. -/
def dbC2 : DB :=
  { curricula := [⟨1, some "BSCS", none⟩]
    jobs := [⟨2, some "data engineer", none⟩]
    skills := [⟨10, "python"⟩]
    course_skills := []
    job_skills := []
    details := [⟨1, 2, 10, "match"⟩, ⟨1, 2, 10, "gap"⟩]
    options_summary := none }

/-- The result `_calculate_gap_analysis dbC2 1 2` actually produces:
"python" appears in both lists. -/
def recC2 : GapResult :=
  { coverage := "50.0%", relevance := "100.0%"
    coverage_score := 50, relevance_score := 100
    matchingSkills := 1, missingSkills := 1
    totalCurriculumSkills := 1, irrelevantSkills := 0
    exact := ["python"], gaps := ["python"] }

/-- Database where the job requires only "python" (one JobSkill link) but
the sole judgment is a gap on "docker". -/
def dbC3 : DB :=
  { curricula := [⟨1, some "BSCS", none⟩]
    jobs := [⟨2, some "data engineer", none⟩]
    skills := [⟨10, "python"⟩, ⟨11, "docker"⟩]
    course_skills := []
    job_skills := [⟨2, 10⟩]
    details := [⟨1, 2, 11, "gap"⟩]
    options_summary := none }

/-- The result `_calculate_gap_analysis dbC3 1 2` actually produces. -/
def recC3 : GapResult :=
  { coverage := "0.0%", relevance := "0.0%"
    coverage_score := 0, relevance_score := 0
    matchingSkills := 0, missingSkills := 1
    totalCurriculumSkills := 1, irrelevantSkills := 1
    exact := [], gaps := ["docker"] }

/-- Database with a valid (curriculum, job) pair, no curriculum-skill
links and no judgments at all. -/
def dbC6 : DB :=
  { curricula := [⟨1, none, none⟩]
    jobs := [⟨2, none, none⟩]
    skills := []
    course_skills := []
    job_skills := []
    details := []
    options_summary := none }

/-- The result `_calculate_gap_analysis dbC6 1 2` actually produces:
`irrelevantSkills = 1` on an entirely empty inventory. -/
def recC6 : GapResult :=
  { coverage := "0.0%", relevance := "0.0%"
    coverage_score := 0, relevance_score := 0
    matchingSkills := 0, missingSkills := 0
    totalCurriculumSkills := 1, irrelevantSkills := 1
    exact := [], gaps := [] }

/-- Database whose judgments are consistent (each skill name carries a
single covered-or-not classification): python=match, sql=gap. -/
def dbC2w : DB :=
  { curricula := [⟨1, some "BSCS", none⟩]
    jobs := [⟨2, some "data engineer", none⟩]
    skills := [⟨10, "python"⟩, ⟨11, "sql"⟩]
    course_skills := []
    job_skills := []
    details := [⟨1, 2, 10, "match"⟩, ⟨1, 2, 11, "gap"⟩]
    options_summary := none }

/-- The result `_calculate_gap_analysis dbC2w 1 2` actually produces. -/
def recC2w : GapResult :=
  { coverage := "50.0%", relevance := "100.0%"
    coverage_score := 50, relevance_score := 100
    matchingSkills := 1, missingSkills := 1
    totalCurriculumSkills := 1, irrelevantSkills := 0
    exact := ["python"], gaps := ["sql"] }

/-- Database with zero curriculum-skill links but three matched
judgments (the relevance-fallback scenario). -/
def dbC7 : DB :=
  { curricula := [⟨1, some "BSCS", none⟩]
    jobs := [⟨2, some "data engineer", none⟩]
    skills := [⟨10, "airflow"⟩, ⟨11, "python"⟩, ⟨12, "spark"⟩]
    course_skills := []
    job_skills := []
    details := [⟨1, 2, 10, "match"⟩, ⟨1, 2, 11, "match"⟩,
                ⟨1, 2, 12, "match"⟩]
    options_summary := none }

/-- The result `_calculate_gap_analysis dbC7 1 2` actually produces. -/
def recC7 : GapResult :=
  { coverage := "100.0%", relevance := "100.0%"
    coverage_score := 100, relevance_score := 100
    matchingSkills := 3, missingSkills := 0
    totalCurriculumSkills := 3, irrelevantSkills := 0
    exact := ["airflow", "python", "spark"], gaps := [] }

/-- Environment in which both API keys are configured and every provider
call fails. -/
def envC9 : ProviderEnv :=
  { groq_api_key := some "groq-key"
    google_api_key := some "google-key"
    groq_outcome := .failure
    gemini_outcome := fun _ => .failure }

/-- A concrete recommendation request. -/
def reqC9 : RecommendationRequest :=
  { job_title := "data engineer"
    curriculum_title := "BSCS"
    missing_skills := ["docker", "sql"]
    coverage_score := 333 / 10
    relevance_score := 10 }

/-! ### Helper lemmas -/

theorem mem_insertStr (a x : String) (l : List String) :
    a ∈ insertStr x l ↔ a = x ∨ a ∈ l := by
  induction l with
  | nil => simp [insertStr]
  | cons b bs ih =>
    by_cases h : strLeb x b
    · simp [insertStr, h]
    · simp [insertStr, h, ih]
      tauto

theorem mem_sortStrs (a : String) (l : List String) :
    a ∈ sortStrs l ↔ a ∈ l := by
  induction l with
  | nil => simp [sortStrs]
  | cons b bs ih => simp [sortStrs, mem_insertStr, ih]

theorem mem_sortedDedup (a : String) (l : List String) :
    a ∈ sortedDedup l ↔ a ∈ l := by
  simp [sortedDedup, mem_sortStrs, List.mem_dedup]

theorem mem_exact_iff (rows : List (String × String)) (x : String) :
    x ∈ (processRows rows).1 ↔ (x, "match") ∈ rows := by
  simp only [processRows, mem_sortedDedup, List.mem_map, List.mem_filter]
  constructor
  · rintro ⟨⟨n, st⟩, ⟨hmem, hst⟩, hfst⟩
    simp only [beq_iff_eq] at hst
    simp only at hfst
    subst hst hfst
    exact hmem
  · intro h
    exact ⟨(x, "match"), ⟨h, by simp⟩, rfl⟩

theorem mem_gaps_iff (rows : List (String × String)) (x : String) :
    x ∈ (processRows rows).2 ↔ ∃ st, (x, st) ∈ rows ∧ st ≠ "match" := by
  simp only [processRows, mem_sortedDedup, List.mem_map, List.mem_filter]
  constructor
  · rintro ⟨⟨n, st⟩, ⟨hmem, hst⟩, hfst⟩
    simp only [bne_iff_ne, ne_eq] at hst
    simp only at hfst
    subst hfst
    exact ⟨st, hmem, hst⟩
  · rintro ⟨st, hmem, hst⟩
    exact ⟨(x, st), ⟨hmem, by simpa using hst⟩, rfl⟩

theorem analysis_ok_inv (db : DB) (cid jid : Nat) (r : GapResult)
    (h : _calculate_gap_analysis db cid jid = .ok r) :
    r = computeFromRows (joinedRows db cid jid) (courseSkillCount db cid) := by
  unfold _calculate_gap_analysis at h
  split at h
  · split at h
    · exact (Except.ok.inj h).symm
    · exact absurd h (by simp)
  · exact absurd h (by simp)

theorem exact_of_computeFromRows (rows : List (String × String)) (t : Nat) :
    (computeFromRows rows t).exact = (processRows rows).1 :=
  rfl

theorem gaps_of_computeFromRows (rows : List (String × String)) (t : Nat) :
    (computeFromRows rows t).gaps = (processRows rows).2 :=
  rfl

theorem keepAlnum_lowerChar_fix (c : Char) (h : keepAlnum c = true) :
    lowerChar c = c := by
  simp only [keepAlnum, decide_eq_true_eq] at h
  unfold lowerChar
  rw [if_neg]
  omega

theorem tryGeminiModels_all_fail (outcome : String → ProviderOutcome)
    (h : ∀ m, outcome m = .failure) (ms : List String) :
    tryGeminiModels outcome ms = none := by
  induction ms with
  | nil => rfl
  | cons m rest ih => simp [tryGeminiModels, h m, ih]

theorem computeMetrics_matchingSkills (ms gs : List String) (t : Nat) :
    (computeMetrics ms gs t).matchingSkills = ms.length :=
  rfl

theorem computeMetrics_totalCurriculumSkills (ms gs : List String) (t : Nat) :
    (computeMetrics ms gs t).totalCurriculumSkills
      = adjusted_total t ms.length :=
  rfl

theorem computeMetrics_irrelevantSkills (ms gs : List String) (t : Nat) :
    (computeMetrics ms gs t).irrelevantSkills
      = (max 0 ((adjusted_total t ms.length : ℤ) - (ms.length : ℤ))).toNat :=
  rfl

/-! ### Claim theorems -/

/-- C1 (counterexample): on a database whose (1, 2) judgments are
python=match, sql=partial, docker=gap with 10 curriculum-skill links,
analyze reports matchingSkills 1, not 2 — the 'partial' judgment is not
treated as covered. -/
theorem claim1_counterexample :
    joinedRows db1 1 2 =
      [("python", "match"), ("sql", "partial"), ("docker", "gap")] ∧
    courseSkillCount db1 1 = 10 ∧
    (_calculate_gap_analysis db1 1 2).toOption.map GapResult.matchingSkills
      = some 1 ∧
    (_calculate_gap_analysis db1 1 2).toOption.map GapResult.matchingSkills
      ≠ some 2 := by
  exact ⟨rfl, rfl, rfl, by decide⟩

/-- C1 (amended): a 'partial' judgment is counted as a gap, not as
covered. For every (curriculum, job) pair whose judgments are
python=match, sql=partial, docker=gap with 10 curriculum-skill links,
analyze returns matchingSkills=1, missingSkills=2, coverage 33.3% and
relevance 10.0%. -/
theorem claim1_amended :
    ∀ (db : DB) (cid jid : Nat),
      curriculumExists db cid = true →
      jobExists db jid = true →
      joinedRows db cid jid =
        [("python", "match"), ("sql", "partial"), ("docker", "gap")] →
      courseSkillCount db cid = 10 →
      _calculate_gap_analysis db cid jid = .ok recDb1 := by
  intro db cid jid hc hj hrows hcount
  unfold _calculate_gap_analysis
  rw [hc, hj, hrows, hcount]
  with_unfolding_all rfl

/-- C1 (witness): the amended claim instantiated on the Scenario-A
database. -/
theorem claim1_witness :
    _calculate_gap_analysis db1 1 2 = .ok recDb1 :=
  claim1_amended db1 1 2 rfl rfl rfl rfl

/-- C2 (counterexample): with two judgments for the same skill name
(python=match and python=gap) on one pair, the analysis reports "python"
in both the covered list and the gap list — the lists are not disjoint. -/
theorem claim2_counterexample :
    _calculate_gap_analysis dbC2 1 2 = .ok recC2 ∧
    "python" ∈ recC2.exact ∧ "python" ∈ recC2.gaps :=
  ⟨by with_unfolding_all rfl, by decide, by decide⟩

/-- C2 (amended): the covered and gap lists are disjoint provided the
stored judgments classify each skill name consistently, i.e. no name
occurs both with status 'match' and with a non-'match' status for the
pair; the code applies no precedence between the two lists. -/
theorem claim2_amended :
    ∀ (db : DB) (cid jid : Nat) (r : GapResult) (x : String),
      _calculate_gap_analysis db cid jid = .ok r →
      (∀ p ∈ joinedRows db cid jid, ∀ q ∈ joinedRows db cid jid,
        p.1 = q.1 → (p.2 = "match" ↔ q.2 = "match")) →
      x ∈ r.exact → x ∉ r.gaps := by
  intro db cid jid r x hok hcons hx hgap
  have hr := analysis_ok_inv db cid jid r hok
  subst hr
  rw [exact_of_computeFromRows, mem_exact_iff] at hx
  rw [gaps_of_computeFromRows, mem_gaps_iff] at hgap
  obtain ⟨st, hmem, hne⟩ := hgap
  exact hne ((hcons (x, "match") hx (x, st) hmem rfl).mp rfl)

/-- C2 (witness): the amended claim instantiated on a database with
consistent judgments (python=match, sql=gap). -/
theorem claim2_witness :
    "python" ∉ recC2w.gaps :=
  claim2_amended dbC2w 1 2 recC2w "python" (by with_unfolding_all rfl)
    (by decide) (by decide)

/-- C3 (counterexample): the job requires only "python" (non-empty
required set) yet the gap list reports "docker", which the job does not
require — the gap list is not intersected with the job-skill links. -/
theorem claim3_counterexample :
    job_required_names dbC3 2 = ["python"] ∧
    _calculate_gap_analysis dbC3 1 2 = .ok recC3 ∧
    "docker" ∈ recC3.gaps ∧
    "docker" ∉ job_required_names dbC3 2 :=
  ⟨rfl, by with_unfolding_all rfl, by decide, by decide⟩

/-- C3 (amended): every skill in the gap list comes from a stored
judgment for the pair whose status is not 'match'; the job's required-
skill links are never consulted, so no subset relation with them holds. -/
theorem claim3_amended :
    ∀ (db : DB) (cid jid : Nat) (r : GapResult) (x : String),
      _calculate_gap_analysis db cid jid = .ok r →
      x ∈ r.gaps →
      ∃ st, (x, st) ∈ joinedRows db cid jid ∧ st ≠ "match" := by
  intro db cid jid r x hok hx
  have hr := analysis_ok_inv db cid jid r hok
  subst hr
  rw [gaps_of_computeFromRows, mem_gaps_iff] at hx
  exact hx

/-- C3 (witness): the amended claim instantiated on the database whose
only judgment is a gap on "docker". -/
theorem claim3_witness :
    ∃ st, ("docker", st) ∈ joinedRows dbC3 1 2 ∧ st ≠ "match" :=
  claim3_amended dbC3 1 2 recC3 "docker" (by with_unfolding_all rfl)
    (by decide)

/-- C4: for all inputs the raw coverage and relevance fractions lie in
[0, 1], and the zero-denominator cases evaluate to 0 instead of failing:
coverage is 0 when there are no judged skills, and relevance is 0 when
both the inventory count and the match count are 0. -/
theorem claim4_metrics_bounded (m g t : Nat) :
    0 ≤ coverage_of m g ∧ coverage_of m g ≤ 1 ∧
    0 ≤ relevance_of m t ∧ relevance_of m t ≤ 1 ∧
    (m + g = 0 → coverage_of m g = 0) ∧
    (m = 0 ∧ t = 0 → relevance_of m t = 0) := by
  refine ⟨?_, ?_, ?_, ?_, ?_, ?_⟩
  · unfold coverage_of
    dsimp only
    split
    · positivity
    · norm_num
  · unfold coverage_of
    dsimp only
    split
    · rename_i h
      rw [div_le_one (by exact_mod_cast h)]
      exact_mod_cast Nat.le_add_right m g
    · norm_num
  · unfold relevance_of
    dsimp only
    split_ifs <;> positivity
  · unfold relevance_of
    dsimp only
    split_ifs with h1 h2 h3
    · norm_num
    · exact le_of_not_lt h2
    · norm_num
    · norm_num
  · intro h
    unfold coverage_of
    dsimp only
    rw [if_neg]
    omega
  · rintro ⟨rfl, rfl⟩
    norm_num [relevance_of, adjusted_total]

/-- C4 (witness): the bounds and zero-denominator cases at concrete
inputs. -/
theorem claim4_witness :
    coverage_of 0 0 = 0 ∧ relevance_of 0 0 = 0 ∧
    0 ≤ coverage_of 2 1 ∧ coverage_of 2 1 ≤ 1 :=
  ⟨(claim4_metrics_bounded 0 0 0).2.2.2.2.1 rfl,
   (claim4_metrics_bounded 0 0 0).2.2.2.2.2 ⟨rfl, rfl⟩,
   (claim4_metrics_bounded 2 1 0).1,
   (claim4_metrics_bounded 2 1 0).2.1⟩

/-- C5: an unknown curriculum id makes analyze fail with NotFound for the
curriculum regardless of the job id (job lookup untouched), and with the
curriculum present an unknown job id fails with NotFound for the job. -/
theorem claim5_unknown_ids_notfound :
    (∀ (db : DB) (cid jid : Nat), curriculumExists db cid = false →
      _calculate_gap_analysis db cid jid
        = .error (.curriculumNotFound cid)) ∧
    (∀ (db : DB) (cid jid : Nat), curriculumExists db cid = true →
      jobExists db jid = false →
      _calculate_gap_analysis db cid jid = .error (.jobNotFound jid)) := by
  constructor
  · intro db cid jid h
    simp [_calculate_gap_analysis, h]
  · intro db cid jid hc hj
    simp [_calculate_gap_analysis, hc, hj]

/-- C5 (witness): both NotFound failures on a concrete database, with the
curriculum check firing even though the job id is also unknown. -/
theorem claim5_witness :
    _calculate_gap_analysis dbC6 99 98 = .error (.curriculumNotFound 99) ∧
    _calculate_gap_analysis dbC6 1 99 = .error (.jobNotFound 99) :=
  ⟨claim5_unknown_ids_notfound.1 dbC6 99 98 (by decide),
   claim5_unknown_ids_notfound.2 dbC6 1 99 (by decide) (by decide)⟩

/-- C6 (counterexample): with zero stored curriculum-skill links and zero
matches, the claimed formula max(0, link_count - matching) gives 0, but
the analysis reports irrelevantSkills = 1 (the fallback denominator is
substituted before the subtraction). -/
theorem claim6_counterexample :
    courseSkillCount dbC6 1 = 0 ∧
    _calculate_gap_analysis dbC6 1 2 = .ok recC6 ∧
    max 0 ((courseSkillCount dbC6 1 : ℤ) - (recC6.matchingSkills : ℤ))
      = 0 ∧
    (recC6.irrelevantSkills : ℤ)
      ≠ max 0 ((courseSkillCount dbC6 1 : ℤ) - (recC6.matchingSkills : ℤ)) :=
  ⟨rfl, by with_unfolding_all rfl, by decide, by decide⟩

/-- C6 (amended): irrelevantSkills equals max(0, T - matchingSkills)
where T is the reported totalCurriculumSkills, which is the stored
Curriculum-Skill link count when that count is nonzero and the fallback
value (matchingSkills when positive) when the count is zero. -/
theorem claim6_amended :
    ∀ (db : DB) (cid jid : Nat) (r : GapResult),
      _calculate_gap_analysis db cid jid = .ok r →
      ((r.irrelevantSkills : ℤ)
          = max 0 ((r.totalCurriculumSkills : ℤ) - (r.matchingSkills : ℤ))) ∧
      (courseSkillCount db cid ≠ 0 →
        r.totalCurriculumSkills = courseSkillCount db cid) ∧
      (courseSkillCount db cid = 0 → 0 < r.matchingSkills →
        r.totalCurriculumSkills = r.matchingSkills) := by
  intro db cid jid r hok
  have hr := analysis_ok_inv db cid jid r hok
  subst hr
  rw [computeFromRows, computeMetrics_irrelevantSkills,
    computeMetrics_totalCurriculumSkills, computeMetrics_matchingSkills]
  refine ⟨?_, ?_, ?_⟩
  · exact Int.toNat_of_nonneg (le_max_left 0 _)
  · intro ht
    unfold adjusted_total
    rw [if_neg ht]
  · intro ht hm
    unfold adjusted_total
    rw [if_pos ht, if_pos hm]

/-- C6 (witness): the amended claim at a database with 10 stored links
and at one with zero links but a positive match count. -/
theorem claim6_witness :
    ((recDb1.irrelevantSkills : ℤ)
        = max 0 ((recDb1.totalCurriculumSkills : ℤ)
            - (recDb1.matchingSkills : ℤ))) ∧
    recDb1.totalCurriculumSkills = courseSkillCount db1 1 ∧
    recC2w.totalCurriculumSkills = recC2w.matchingSkills :=
  ⟨(claim6_amended db1 1 2 recDb1 (by with_unfolding_all rfl)).1,
   (claim6_amended db1 1 2 recDb1 (by with_unfolding_all rfl)).2.1
     (by decide),
   (claim6_amended dbC2w 1 2 recC2w (by with_unfolding_all rfl)).2.2
     (by decide) (by decide)⟩

/-- C7: when the stored curriculum-skill link count is zero but the match
count is positive, relevance falls back to the match count as its
denominator and evaluates to 100.0%. -/
theorem claim7_relevance_fallback :
    ∀ (db : DB) (cid jid : Nat) (r : GapResult),
      courseSkillCount db cid = 0 →
      _calculate_gap_analysis db cid jid = .ok r →
      0 < r.matchingSkills →
      r.relevance_score = 100 ∧ r.relevance = "100.0%" := by
  intro db cid jid r hcount hok hm
  have hr := analysis_ok_inv db cid jid r hok
  subst hr
  rw [hcount] at *
  rw [computeFromRows, computeMetrics_matchingSkills] at hm
  have h1 : relevance_of
      ((processRows (joinedRows db cid jid)).1).length 0 = 1 := by
    unfold relevance_of adjusted_total
    rw [if_pos rfl, if_pos hm]
    dsimp only
    rw [if_pos hm, div_self (by exact_mod_cast hm.ne' :
      (((processRows (joinedRows db cid jid)).1).length : ℚ) ≠ 0)]
    rw [if_neg (lt_irrefl 1)]
  constructor
  · show round1 (relevance_of
      ((processRows (joinedRows db cid jid)).1).length 0 * 100) = 100
    rw [h1]
    with_unfolding_all decide
  · show fmtPct (relevance_of
      ((processRows (joinedRows db cid jid)).1).length 0) = "100.0%"
    rw [h1]
    with_unfolding_all decide

/-- C7 (witness): the fallback on the database with zero links and three
matched judgments. -/
theorem claim7_witness :
    recC7.relevance_score = 100 ∧ recC7.relevance = "100.0%" :=
  claim7_relevance_fallback dbC7 1 2 recC7 rfl (by with_unfolding_all rfl)
    (by decide)

/-- C8: a populated options cache is returned verbatim by every later
get_options call regardless of the database contents, and after
invalidate_options_cache the next call recomputes from the current
database and re-populates the cache. -/
theorem claim8_options_cache :
    ∀ (c : Option Options) (dbA dbB : DB),
      (get_options ((get_options c dbA).2) dbB).1 = (get_options c dbA).1 ∧
      (get_options invalidate_options_cache dbB).1 = compute_options dbB ∧
      (get_options invalidate_options_cache dbB).2
        = some (compute_options dbB) := by
  intro c dbA dbB
  cases c <;> simp [get_options, invalidate_options_cache]

/-- C9: with the keys configured, a cache miss, and every provider call
failing, the recommend handler returns the apologetic placeholder (or the
key-missing notice when the Google key is absent) and leaves the cache
unchanged; the handler is a total function, so no provider outcome makes
it raise. -/
theorem claim9_recommend_never_raises :
    ∀ (env : ProviderEnv) (cache : List (String × String))
      (req : RecommendationRequest),
      env.groq_outcome = .failure →
      (∀ m, env.gemini_outcome m = .failure) →
      (cache.find? fun e => e.1 == cacheKey req) = none →
      ((generate_recommendation env cache req).1 = TOTAL_FAILURE_MSG ∨
        (generate_recommendation env cache req).1 = API_KEY_MISSING_MSG) ∧
      (generate_recommendation env cache req).2 = cache := by
  intro env cache req hg hgem hfind
  unfold generate_recommendation
  simp only [hfind]
  cases hko : env.google_api_key with
  | none => simp
  | some k =>
    cases hgk : env.groq_api_key with
    | none =>
      simp [tryGeminiModels_all_fail env.gemini_outcome hgem]
    | some gk =>
      simp [hg, tryGeminiModels_all_fail env.gemini_outcome hgem]

/-- C9 (witness): total provider failure on a concrete environment and
request returns the placeholder and an unchanged cache. -/
theorem claim9_witness :
    ((generate_recommendation envC9 [] reqC9).1 = TOTAL_FAILURE_MSG ∨
      (generate_recommendation envC9 [] reqC9).1 = API_KEY_MISSING_MSG) ∧
    (generate_recommendation envC9 [] reqC9).2 = [] :=
  claim9_recommend_never_raises envC9 [] reqC9 rfl (fun _ => rfl) rfl

/-- C10: normalize_string is idempotent — normalizing an already
normalized string changes nothing, since the output contains only ASCII
lowercase letters and digits, which lowercasing and the filter both
preserve. -/
theorem claim10_normalize_idempotent (s : String) :
    normalize_string (normalize_string s) = normalize_string s := by
  unfold normalize_string
  by_cases hs : s = ""
  · simp [hs]
  · rw [if_neg hs]
    by_cases ht : String.mk ((s.toList.map lowerChar).filter keepAlnum) = ""
    · rw [if_pos ht, ht]
    · rw [if_neg ht]
      congr 1
      have hdata : (String.mk
          ((s.toList.map lowerChar).filter keepAlnum)).toList
          = (s.toList.map lowerChar).filter keepAlnum := rfl
      rw [hdata]
      have hmap : ((s.toList.map lowerChar).filter keepAlnum).map lowerChar
          = (s.toList.map lowerChar).filter keepAlnum := by
        calc ((s.toList.map lowerChar).filter keepAlnum).map lowerChar
            = ((s.toList.map lowerChar).filter keepAlnum).map id :=
              List.map_congr_left fun a ha =>
                keepAlnum_lowerChar_fix a (List.of_mem_filter ha)
          _ = (s.toList.map lowerChar).filter keepAlnum := List.map_id _
      rw [hmap]
      exact List.filter_eq_self.mpr fun a ha => List.of_mem_filter ha

end TechGap
